import Mathlib

/-!
Shallow embedding of `src/solar_robot.py` (bzoltan1/solar-robot): a supervisory
control loop that reads solar power over Modbus, switches two Shelly devices
(a relay and a lamp) via HTTP, persists "turned on by script" ownership flags
in a JSON state file, and sleeps until sunrise after sunset.

Modelling conventions:
* The JSON state file is `StateFile`: `missing` (no file), `unparseable`
  (`json.load` raises), or `parsed j` where `j` is either a JSON object
  carrying the two optional boolean keys or some non-object JSON value.
* HTTP and Modbus outcomes are explicit parameters; inside the main control
  loop the network is modelled as succeeding (status 200, truthful state
  queries), matching the happy path the loop-level properties speak about;
  `control_shelly_device` is additionally modelled with an explicit HTTP
  outcome to cover its failure paths.
* Python exceptions that a function catches internally are modelled by the
  corresponding default return value; an exception that would propagate out
  uncaught (e.g. a `KeyError` in `main`) is modelled as `Option.none`.
* Wall-clock instants are `(day, minuteOfDay)` pairs; the astral sunrise and
  sunset oracle is an explicit function from a day to that day's sun times.
-/

namespace SolarRobot

/-- The two controlled device kinds (`'relay'` / `'lamp'` strings in the source). -/
inductive Device
  | relay
  | lamp
deriving DecidableEq, Repr, Fintype

/-- A parsed JSON object as far as the program inspects it: the two keys
`relay_turned_on_by_script` and `lamp_turned_on_by_script`, each possibly
absent (`none`) in a corrupted file. -/
structure JsonDict where
  relay : Option Bool
  lamp : Option Bool
deriving DecidableEq, Repr, Fintype

/-- A successfully parsed JSON value: either an object (the only shape the
program ever writes) or some non-object value such as a list or a number. -/
inductive Json
  | dict (d : JsonDict)
  | nonDict
deriving DecidableEq, Repr, Fintype

/-- The on-disk state file at `config["state_file"]`. -/
inductive StateFile
  | missing
  | unparseable
  | parsed (j : Json)
deriving DecidableEq, Repr, Fintype

/-- The default state dictionary
`{"relay_turned_on_by_script": False, "lamp_turned_on_by_script": False}`. -/
def defaultDict : JsonDict := ⟨some false, some false⟩

/-- `load_state` (solar_robot.py:125-135): returns the parsed file content
as-is; a missing file or a `json.load` exception yields the default
dictionary. Note that a parsed non-default shape is NOT normalised. -/
def load_state : StateFile → Json
  | .missing => .dict defaultDict
  | .unparseable => .dict defaultDict
  | .parsed j => j

/-- Dictionary key assignment `state["…_turned_on_by_script"] = turn_on`. -/
def JsonDict.set (d : JsonDict) : Device → Bool → JsonDict
  | .relay, b => { d with relay := some b }
  | .lamp, b => { d with lamp := some b }

/-- `save_state` (solar_robot.py:137-148): read-merge-write of the whole
record. If the loaded value is not a dictionary, the key assignment raises
`TypeError`, which the surrounding `except` swallows, so the file is left
unchanged; otherwise the updated dictionary is written back. -/
def save_state (dev : Device) (turn_on : Bool) (f : StateFile) : StateFile :=
  match load_state f with
  | .dict d => .parsed (.dict (d.set dev turn_on))
  | .nonDict => f

/-- The ownership flag for `dev` as a subsequent `load_state` plus key lookup
would observe it: `none` when the lookup would raise. -/
def flagOf (dev : Device) (f : StateFile) : Option Bool :=
  match load_state f with
  | .dict d => match dev with
    | .relay => d.relay
    | .lamp => d.lamp
  | .nonDict => none

/-- The world visible to the control loop: the state file plus the physical
on/off state of the two Shelly devices. -/
structure World where
  file : StateFile
  relayOn : Bool
  lampOn : Bool
deriving DecidableEq, Repr, Fintype

/-- Physical state of a device in the world. -/
def World.deviceOn (w : World) : Device → Bool
  | .relay => w.relayOn
  | .lamp => w.lampOn

/-- Physically switch a device. -/
def World.setOn (w : World) : Device → Bool → World
  | .relay, b => { w with relayOn := b }
  | .lamp, b => { w with lampOn := b }

/-- A `setState` device command issued over HTTP
(`control_shelly_device(ip, type, turn_on)` call in the source). -/
inductive Call
  | setState (dev : Device) (turn_on : Bool)
deriving DecidableEq, Repr

/-- Outcome of the `requests.get` call inside `control_shelly_device`:
a response with an HTTP status code, or a raised exception. -/
inductive HttpResult
  | ok (status : Nat)
  | exn
deriving DecidableEq, Repr

/-- `control_shelly_device` (solar_robot.py:104-123) with its HTTP outcome
explicit. On status 200 the Shelly device takes the commanded state and, when
`track_state` holds (the default, used at every call site), `save_state`
persists the commanded ownership flag. On any other status, or on an
exception, everything is left unchanged; the function itself never raises
(the whole body is wrapped in `try`/`except`). -/
def control_shelly_device (dev : Device) (turn_on : Bool) (track_state : Bool)
    (resp : HttpResult) (w : World) : World :=
  match resp with
  | .exn => w
  | .ok status =>
    if status = 200 then
      let w1 := w.setOn dev turn_on
      if track_state then { w1 with file := save_state dev turn_on w.file } else w1
    else w

/-- A `control_shelly_device` call as the main loop performs it
(`track_state` defaulted to `True`), on the happy network path (status 200),
together with the command it put on the wire. The command is issued
regardless of the outcome; the returned world reflects a successful call. -/
def controlOk (dev : Device) (turn_on : Bool) (w : World) : World × List Call :=
  (control_shelly_device dev turn_on true (.ok 200) w, [Call.setState dev turn_on])

/-- The threshold configuration read from `solar_robot.json`. -/
structure Config where
  high_threshold : Int
  low_threshold : Int
deriving DecidableEq, Repr

/-- The flag local variable the loop consults for a device:
`relay_turned_on_by_script` / `lamp_turned_on_by_script` in `main`. -/
def tickFlag (rf lf : Bool) : Device → Bool
  | .relay => rf
  | .lamp => lf

/-- One iteration of the policy part of the `while True` loop in `main`
(solar_robot.py:176-203): `reading` is the result of `get_solar_output()`;
`rf`/`lf` are the in-memory ownership flags, which the loop body reads but
never writes (they are plain local variables loaded before the loop at lines
163-165). `get_shelly_device_state` is modelled as returning the true
physical state (happy path). Returns the new world and the `setState`
commands issued this tick, in order. -/
def tick (cfg : Config) (rf lf : Bool) (reading : Option Int) (w : World) :
    World × List Call :=
  match reading with
  | none => (w, [])
  | some p =>
    if p > cfg.high_threshold then
      let r1 := controlOk .relay true w
      let r2 := controlOk .lamp true r1.1
      (r2.1, r1.2 ++ r2.2)
    else if p < cfg.low_threshold then
      let r1 :=
        if w.deviceOn .relay then
          if rf then controlOk .relay false w else (w, [])
        else (w, [])
      let r2 :=
        if r1.1.deviceOn .lamp then
          if lf then controlOk .lamp false r1.1 else (r1.1, [])
        else (r1.1, [])
      (r2.1, r1.2 ++ r2.2)
    else (w, [])

/-- Several consecutive loop iterations over a list of readings. The flags
`rf`/`lf` are loop-invariant exactly as in the source: `main` loads them once
at lines 163-165 and no statement inside the `while` loop reassigns them
(`save_state` only rewrites the file on disk). Returns the final world and
the list of commands issued per tick. -/
def runTicks (cfg : Config) (rf lf : Bool) (w : World) :
    List (Option Int) → World × List (List Call)
  | [] => (w, [])
  | reading :: rest =>
    let r1 := tick cfg rf lf reading w
    let r2 := runTicks cfg rf lf r1.1 rest
    (r2.1, r1.2 :: r2.2)

/-- The startup sequence of `main` before the loop (solar_robot.py:163-173):
load the state file, extract both flags (a `KeyError`/`TypeError` here is
uncaught and kills the process, modelled as `none`), query both devices
(happy path: the true physical state), and reconcile: a device found ON whose
flag is false is re-recorded as user-owned via `save_state(dev, False)`.
Returns the two in-memory flags, the reconciled file, and the `setState`
commands issued during reconciliation (the source issues none). -/
def reconcile (w : World) (rf lf : Bool) : StateFile :=
  let f1 := if w.relayOn && !rf then save_state .relay false w.file else w.file
  if w.lampOn && !lf then save_state .lamp false f1 else f1

/-- The startup sequence itself; see `reconcile` for lines 170-173. -/
def startup (w : World) : Option (Bool × Bool × StateFile × List Call) :=
  match load_state w.file with
  | .nonDict => none
  | .dict d =>
    match d.relay, d.lamp with
    | some rf, some lf => some (rf, lf, reconcile w rf lf, [])
    | _, _ => none

/-- A wall-clock instant in the configured timezone: a calendar day index and
a minute of that day (`0 ≤ minute < 1440` for real instants). -/
structure Instant where
  day : Nat
  minute : Nat
deriving DecidableEq, Repr

/-- An instant on the absolute minute axis. -/
def Instant.toMin (i : Instant) : Nat := i.day * 1440 + i.minute

/-- The sunrise/sunset instants the astral `sun(...)` call computes for one
day. The oracle below maps each day to its sun times. -/
structure SunTimes where
  sunrise : Instant
  sunset : Instant
deriving DecidableEq, Repr

/-- A well-formed sun oracle: the events computed for day `d` lie within
day `d` (astral returns instants of the queried date). -/
def validSun (sun : Nat → SunTimes) : Prop :=
  ∀ d, (sun d).sunrise.day = d ∧ (sun d).sunset.day = d ∧
    (sun d).sunrise.minute < 1440 ∧ (sun d).sunset.minute < 1440

/-- `has_passed_event("sunset", …)` (solar_robot.py:39-47): compares the
current time against today's sunset. -/
def has_passed_sunset (sun : Nat → SunTimes) (today : Nat) (now : Instant) :
    Bool :=
  now.toMin > ((sun today).sunset).toMin

/-- `wait_until_sunrise` (solar_robot.py:49-67): if the current time is after
today's sunset, computes tomorrow's sunrise and sleeps for
`(next_sunrise_time - current_time)`; otherwise it does not sleep. Returns
the slept duration (minutes here, seconds in the source). -/
def wait_until_sunrise (sun : Nat → SunTimes) (today : Nat) (now : Instant) :
    Option Int :=
  if now.toMin > ((sun today).sunset).toMin then
    some ((((sun (today + 1)).sunrise).toMin : Int) - (now.toMin : Int))
  else none

/-- The sleep a loop iteration ends with. -/
inductive SleepAction
  | untilSunrise (dur : Int)
  | noSleep
  | poll (units : Nat)
deriving DecidableEq, Repr

/-- The sleep decision at the bottom of the `while True` loop
(solar_robot.py:205-209): after sunset, delegate to `wait_until_sunrise`;
otherwise `time.sleep(5)`. -/
def loop_sleep (sun : Nat → SunTimes) (today : Nat) (now : Instant) :
    SleepAction :=
  if has_passed_sunset sun today now then
    match wait_until_sunrise sun today now with
    | some d => .untilSunrise d
    | none => .noSleep
  else .poll 5

/-- One full loop iteration: the policy part followed by the sleep decision
the iteration always falls through to. -/
def main_tick (cfg : Config) (sun : Nat → SunTimes) (today : Nat)
    (now : Instant) (rf lf : Bool) (reading : Option Int) (w : World) :
    World × List Call × SleepAction :=
  let r := tick cfg rf lf reading w
  (r.1, r.2, loop_sleep sun today now)

/-- The reply to `client.read_input_registers(5029, count=2)`: an error reply
or a list of register values. Modbus input registers are 16-bit words, hence
`Fin 65536`. -/
structure ModbusResponse where
  isError : Bool
  registers : List (Fin 65536)
deriving DecidableEq, Repr

/-- `get_solar_output` (solar_robot.py:69-85): `none` models the exception
path (connection failure, or `registers[1]` raising `IndexError` inside the
`try`) and the error-reply path; otherwise the power is the second register. -/
def get_solar_output (conn : Option ModbusResponse) : Option Nat :=
  match conn with
  | none => none
  | some r =>
    if r.isError then none
    else (r.registers[1]?).map Fin.val

/-- A cloudless test oracle for witnesses: sunrise 06:00, sunset 20:00 every
day. -/
def sunnyOracle : Nat → SunTimes := fun d => ⟨⟨d, 360⟩, ⟨d, 1200⟩⟩

/-! ## Helper lemmas about the ownership store -/

theorem save_dict (dev : Device) (b : Bool) (f : StateFile)
    (d : JsonDict) (hf : load_state f = .dict d) :
    save_state dev b f = .parsed (.dict (d.set dev b)) := by
  simp only [save_state, hf]

theorem load_save_dict (dev : Device) (b : Bool) (f : StateFile)
    (d : JsonDict) (hf : load_state f = .dict d) :
    load_state (save_state dev b f) = .dict (d.set dev b) := by
  rw [save_dict dev b f d hf]
  rfl

theorem flagOf_save_self (dev : Device) (b : Bool) (f : StateFile)
    (d : JsonDict) (hf : load_state f = .dict d) :
    flagOf dev (save_state dev b f) = some b := by
  cases dev <;>
    simp [flagOf, load_save_dict _ _ _ _ hf, JsonDict.set]

theorem flagOf_save_other (dev dev' : Device) (b : Bool) (f : StateFile)
    (h : dev ≠ dev') :
    flagOf dev (save_state dev' b f) = flagOf dev f := by
  cases hl : load_state f with
  | dict d =>
    cases dev <;> cases dev' <;>
      simp_all [flagOf, load_save_dict _ _ _ _ hl, JsonDict.set]
  | nonDict => simp [save_state, hl, flagOf]

/-! ## Claim theorems -/

/-- C1: evaluation of the control loop on the claim's scenario — `high=1000`,
`low=200`, both devices physically off, ownership flags false (fresh state
file), reading sequence `[1200, 500, 150]`, one process run. After reading 1
both turn-on commands are issued and after reading 2 none, as claimed; but
after reading 3 NO commands are issued either (third list empty), even though
the state file records both devices as script-owned: the loop consults the
in-memory flags loaded once before the loop, which `save_state` never
refreshes, so it believes the script did not turn the devices on. -/
theorem runTicks_scenario_no_turn_off_after_low_reading :
    runTicks ⟨1000, 200⟩ false false ⟨.missing, false, false⟩
      [some 1200, some 500, some 150] =
    (⟨.parsed (.dict ⟨some true, some true⟩), true, true⟩,
     [[.setState .relay true, .setState .lamp true], [], []]) := by decide

/-- C2 counterexample: with both devices already physically ON (and recorded
script-owned), a tick with reading 1200 > high=1000 still issues device
commands — the turn-on branch calls `control_shelly_device` unconditionally,
so repeating the tick is not command-free as claimed. -/
theorem tick_high_reading_repeats_commands_when_already_on :
    (tick ⟨1000, 200⟩ true true (some 1200)
      ⟨.parsed (.dict ⟨some true, some true⟩), true, true⟩).2 ≠ [] := by decide

/-- C2 amended: for every reading `p > high`, the tick leaves both devices ON
and (whenever the state file loads as a dictionary, which covers a missing,
unparseable, or well-formed file) records both script-owned, regardless of
prior state — but it always issues exactly the two `setState(on)` commands,
even when both devices are already ON. -/
theorem tick_high_reading_turns_on_both_and_records (cfg : Config)
    (rf lf : Bool) (p : Int) (w : World) (d : JsonDict)
    (hp : p > cfg.high_threshold) (hf : load_state w.file = .dict d) :
    (tick cfg rf lf (some p) w).1.relayOn = true ∧
    (tick cfg rf lf (some p) w).1.lampOn = true ∧
    flagOf .relay (tick cfg rf lf (some p) w).1.file = some true ∧
    flagOf .lamp (tick cfg rf lf (some p) w).1.file = some true ∧
    (tick cfg rf lf (some p) w).2 =
      [.setState .relay true, .setState .lamp true] := by
  have h1 : save_state .relay true w.file = .parsed (.dict ⟨some true, d.lamp⟩) := by
    rw [save_dict _ _ _ _ hf]
    rfl
  have h2 : save_state .lamp true (StateFile.parsed (.dict ⟨some true, d.lamp⟩)) =
      .parsed (.dict ⟨some true, some true⟩) := rfl
  simp [tick, hp, controlOk, control_shelly_device, World.setOn, h1, h2,
    flagOf, load_state]

/-- C2 witness: the amended theorem applied at `p = 1200`, `high = 1000`,
both devices initially off, missing state file. -/
theorem tick_high_turns_on_witness :
    (tick ⟨1000, 200⟩ false false (some 1200) ⟨.missing, false, false⟩).1.relayOn = true ∧
    (tick ⟨1000, 200⟩ false false (some 1200) ⟨.missing, false, false⟩).1.lampOn = true ∧
    flagOf .relay (tick ⟨1000, 200⟩ false false (some 1200) ⟨.missing, false, false⟩).1.file = some true ∧
    flagOf .lamp (tick ⟨1000, 200⟩ false false (some 1200) ⟨.missing, false, false⟩).1.file = some true ∧
    (tick ⟨1000, 200⟩ false false (some 1200) ⟨.missing, false, false⟩).2 =
      [.setState .relay true, .setState .lamp true] :=
  tick_high_reading_turns_on_both_and_records ⟨1000, 200⟩ false false 1200
    ⟨.missing, false, false⟩ defaultDict (by decide) rfl

/-- C7 counterexample: a state file whose content is valid JSON but not the
expected record — the object `\x7b\x7d` with neither key — is corrupt, yet
`load_state` returns it unchanged rather than the all-false default, and the
caller crashes: `main`'s key lookup at startup raises an uncaught
`KeyError` (modelled as `startup = none`). -/
theorem load_state_wrong_shape_not_default_and_main_crashes :
    load_state (.parsed (.dict ⟨none, none⟩)) ≠ .dict defaultDict ∧
    startup ⟨.parsed (.dict ⟨none, none⟩), false, false⟩ = none := by decide

/-- C7 amended: `load_state` returns the all-false default without raising on
a missing state file and on content that fails to parse as JSON, and with a
missing file the caller's startup proceeds normally; but content that parses
to JSON of the wrong shape is returned as-is, not defaulted. -/
theorem load_state_missing_or_unparseable_defaults :
    load_state .missing = .dict defaultDict ∧
    load_state .unparseable = .dict defaultDict ∧
    (∀ j, load_state (.parsed j) = j) ∧
    startup ⟨.missing, false, false⟩ = some (false, false, .missing, []) :=
  ⟨rfl, rfl, fun _ => rfl, rfl⟩

/-- C8: round-trip through the ownership store. For every prior file whose
content loads as a dictionary (missing, unparseable, or any well-formed
record — everything the store itself ever writes), `save_state(relay, true)`
followed by `load_state` yields `relay_turned_on_by_script = true` and leaves
the lamp flag at its prior loaded value, and symmetrically for the lamp:
`save_state` is a read-merge-write of the whole record that updates only the
named device's field. -/
theorem save_state_round_trip (f : StateFile) (d : JsonDict)
    (hf : load_state f = .dict d) :
    flagOf .relay (save_state .relay true f) = some true ∧
    flagOf .lamp (save_state .relay true f) = flagOf .lamp f ∧
    flagOf .lamp (save_state .lamp true f) = some true ∧
    flagOf .relay (save_state .lamp true f) = flagOf .relay f :=
  ⟨flagOf_save_self _ _ _ _ hf, flagOf_save_other _ _ _ _ (by decide),
   flagOf_save_self _ _ _ _ hf, flagOf_save_other _ _ _ _ (by decide)⟩

/-- C8 witness: the round-trip applied to a concrete prior record with the
lamp flag true. -/
theorem save_state_round_trip_witness :
    flagOf .relay (save_state .relay true (.parsed (.dict ⟨some false, some true⟩))) = some true ∧
    flagOf .lamp (save_state .relay true (.parsed (.dict ⟨some false, some true⟩))) =
      flagOf .lamp (.parsed (.dict ⟨some false, some true⟩)) ∧
    flagOf .lamp (save_state .lamp true (.parsed (.dict ⟨some false, some true⟩))) = some true ∧
    flagOf .relay (save_state .lamp true (.parsed (.dict ⟨some false, some true⟩))) =
      flagOf .relay (.parsed (.dict ⟨some false, some true⟩)) :=
  save_state_round_trip (.parsed (.dict ⟨some false, some true⟩))
    ⟨some false, some true⟩ rfl

/-- C3: if a device is physically ON, its in-memory ownership flag is false
(on by the user), and the reading satisfies `p < low` (with the configured
`low < high`), then the tick issues no `setState` command for that device and
its persisted ownership flag is left unchanged. -/
theorem tick_low_reading_user_owned_untouched (cfg : Config) (rf lf : Bool)
    (p : Int) (w : World) (dev : Device)
    (hth : cfg.low_threshold < cfg.high_threshold)
    (hp : p < cfg.low_threshold)
    (hon : w.deviceOn dev = true)
    (hflag : tickFlag rf lf dev = false) :
    (∀ b, Call.setState dev b ∉ (tick cfg rf lf (some p) w).2) ∧
    flagOf dev (tick cfg rf lf (some p) w).1.file = flagOf dev w.file := by
  have hnp : ¬ p > cfg.high_threshold := by omega
  cases dev with
  | relay =>
    have hr : w.relayOn = true := hon
    have hrf : rf = false := hflag
    subst hrf
    by_cases hl : w.lampOn <;> by_cases hlf : lf <;>
      simp [tick, hnp, hp, hr, hl, hlf, controlOk, control_shelly_device,
        World.setOn, World.deviceOn, flagOf_save_other]
  | lamp =>
    have hl : w.lampOn = true := hon
    have hlf : lf = false := hflag
    subst hlf
    by_cases hr : w.relayOn <;> by_cases hrf : rf <;>
      simp [tick, hnp, hp, hr, hl, hrf, controlOk, control_shelly_device,
        World.setOn, World.deviceOn, flagOf_save_other]

/-- C3 witness: relay physically ON with flag false, reading 150 < low=200,
lamp off; the tick issues no relay command and leaves the relay flag as
loaded from the concrete record. -/
theorem tick_low_reading_user_owned_untouched_witness :
    (200 : Int) < 1000 ∧ (150 : Int) < 200 ∧
    (∀ b, Call.setState .relay b ∉
      (tick ⟨1000, 200⟩ false false (some 150)
        ⟨.parsed (.dict ⟨some false, some false⟩), true, false⟩).2) ∧
    flagOf .relay
      (tick ⟨1000, 200⟩ false false (some 150)
        ⟨.parsed (.dict ⟨some false, some false⟩), true, false⟩).1.file =
      flagOf .relay (.parsed (.dict ⟨some false, some false⟩)) :=
  ⟨by decide, by decide,
    (tick_low_reading_user_owned_untouched ⟨1000, 200⟩ false false 150
      ⟨.parsed (.dict ⟨some false, some false⟩), true, false⟩ .relay
      (by decide) (by decide) rfl rfl).1,
    (tick_low_reading_user_owned_untouched ⟨1000, 200⟩ false false 150
      ⟨.parsed (.dict ⟨some false, some false⟩), true, false⟩ .relay
      (by decide) (by decide) rfl rfl).2⟩

/-- C5: at startup reconciliation, a device observed physically ON while its
loaded ownership flag is false is re-recorded as user-owned: startup
completes with the flag still false in the reconciled file, and issues no
`setState` command at all (empty command list). -/
theorem startup_reconciliation_marks_user_owned :
    ∀ (w : World) (rf lf : Bool) (dev : Device),
      load_state w.file = .dict ⟨some rf, some lf⟩ →
      tickFlag rf lf dev = false →
      w.deviceOn dev = true →
      startup w = some (rf, lf, reconcile w rf lf, []) ∧
      flagOf dev (reconcile w rf lf) = some false := by
  intro w rf lf dev
  revert w
  cases dev <;> cases rf <;> cases lf <;> decide

/-- C5 witness: reconciliation with the relay found ON, flag false, lamp off,
on a well-formed state file. -/
theorem startup_reconciliation_marks_user_owned_witness :
    startup ⟨.parsed (.dict ⟨some false, some false⟩), true, false⟩ =
      some (false, false,
        reconcile ⟨.parsed (.dict ⟨some false, some false⟩), true, false⟩ false false,
        []) ∧
    flagOf .relay
      (reconcile ⟨.parsed (.dict ⟨some false, some false⟩), true, false⟩ false false) =
      some false :=
  startup_reconciliation_marks_user_owned
    ⟨.parsed (.dict ⟨some false, some false⟩), true, false⟩ false false
    .relay rfl rfl rfl

/-- C6: `control_shelly_device` with state tracking on (the default, used at
every call site), for any prior file that loads as a dictionary: a successful
call (HTTP 200) persists the commanded ownership flag for the device, and a
failed call (any other status, or a raised exception) leaves the state file
unchanged — and the function is total, returning to its caller in every case
because its whole body is wrapped in `try`/`except`. -/
theorem control_persists_on_success_only (dev : Device) (b : Bool)
    (resp : HttpResult) (w : World) (d : JsonDict)
    (hf : load_state w.file = .dict d) :
    (resp = .ok 200 →
      flagOf dev (control_shelly_device dev b true resp w).file = some b) ∧
    (resp ≠ .ok 200 → (control_shelly_device dev b true resp w).file = w.file) := by
  constructor
  · intro h200
    subst h200
    cases dev <;>
      simp [control_shelly_device, World.setOn, flagOf_save_self _ _ _ _ hf]
  · intro hfail
    cases resp with
    | exn => rfl
    | ok status =>
      have hs : ¬ status = 200 := fun hs => hfail (by rw [hs])
      simp [control_shelly_device, hs]

/-- C6 witness: a 200 response persists `relay := true`; a 404 response
leaves the (missing) state file untouched. -/
theorem control_persists_on_success_only_witness :
    flagOf .relay
      (control_shelly_device .relay true true (.ok 200) ⟨.missing, false, false⟩).file =
      some true ∧
    (control_shelly_device .relay true true (.ok 404) ⟨.missing, false, false⟩).file =
      .missing :=
  ⟨(control_persists_on_success_only .relay true (.ok 200) ⟨.missing, false, false⟩
      defaultDict rfl).1 rfl,
   (control_persists_on_success_only .relay true (.ok 404) ⟨.missing, false, false⟩
      defaultDict rfl).2 (by decide)⟩

/-- C9: a tick whose reading is absent, or present with `low ≤ p ≤ high`,
issues no `setState` command for either device and leaves the world —
including the persisted state file — unchanged, and still falls through to
the same sleep decision. -/
theorem tick_absent_or_in_band_reading_no_calls (cfg : Config)
    (sun : Nat → SunTimes) (today : Nat) (now : Instant) (rf lf : Bool)
    (reading : Option Int) (w : World)
    (h : reading = none ∨
      ∃ p, reading = some p ∧ cfg.low_threshold ≤ p ∧ p ≤ cfg.high_threshold) :
    main_tick cfg sun today now rf lf reading w =
      (w, [], loop_sleep sun today now) := by
  rcases h with h | ⟨p, hr, hlo, hhi⟩
  · subst h; rfl
  · subst hr
    have h1 : ¬ p > cfg.high_threshold := by omega
    have h2 : ¬ p < cfg.low_threshold := by omega
    simp [main_tick, tick, h1, h2]

/-- C9 witness: reading 500 with thresholds (1000, 200) leaves the world
unchanged and issues no commands. -/
theorem tick_absent_or_in_band_reading_no_calls_witness :
    main_tick ⟨1000, 200⟩ sunnyOracle 0 ⟨0, 600⟩ false false (some 500)
      ⟨.missing, false, false⟩ =
    (⟨.missing, false, false⟩, [], loop_sleep sunnyOracle 0 ⟨0, 600⟩) :=
  tick_absent_or_in_band_reading_no_calls ⟨1000, 200⟩ sunnyOracle 0 ⟨0, 600⟩
    false false (some 500) ⟨.missing, false, false⟩
    (Or.inr ⟨500, rfl, by decide, by decide⟩)

/-- C10: whenever `get_solar_output` returns a present reading `p`, the
response was a non-error two-register read and `p` is the value of the second
16-bit input register, hence `0 ≤ p ≤ 65535` — a present reading is never
negative (the return type `Nat` makes `0 ≤ p` intrinsic). -/
theorem get_solar_output_in_register_range (conn : Option ModbusResponse)
    (p : Nat) (h : get_solar_output conn = some p) :
    p ≤ 65535 ∧ ∃ r, ∃ v : Fin 65536, conn = some r ∧ r.isError = false ∧
      r.registers[1]? = some v ∧ p = v.val := by
  cases conn with
  | none => simp [get_solar_output] at h
  | some r =>
    by_cases he : r.isError
    · simp [get_solar_output, he] at h
    · cases hv : r.registers[1]? with
      | none => simp [get_solar_output, he, hv] at h
      | some v =>
        simp [get_solar_output, he, hv] at h
        refine ⟨?_, r, v, rfl, by simpa using he, hv, h.symm⟩
        have := v.isLt
        omega

/-- C10 witness: a non-error read of registers `[0, 500]` yields the reading
500, which is the second register's value and at most 65535. -/
theorem get_solar_output_in_register_range_witness :
    500 ≤ 65535 ∧ ∃ r, ∃ v : Fin 65536,
      (some ⟨false, [0, 500]⟩ : Option ModbusResponse) = some r ∧
      r.isError = false ∧ r.registers[1]? = some v ∧ 500 = v.val :=
  get_solar_output_in_register_range (some ⟨false, [0, 500]⟩) 500 rfl

/-- C4: whenever the current time is after today's sunset (with a well-formed
sun oracle and a real instant), `wait_until_sunrise` sleeps for exactly
(tomorrow's sunrise) − (now), that duration is strictly positive, and the
loop takes the sleep-until-sunrise branch for this iteration, not the fixed
5-unit polling sleep. -/
theorem after_sunset_sleep_until_tomorrow_sunrise (sun : Nat → SunTimes)
    (today : Nat) (now : Instant)
    (hs : validSun sun) (hday : now.day = today) (hmin : now.minute < 1440)
    (hafter : has_passed_sunset sun today now = true) :
    wait_until_sunrise sun today now =
      some ((((sun (today + 1)).sunrise).toMin : Int) - (now.toMin : Int)) ∧
    (0 : Int) < (((sun (today + 1)).sunrise).toMin : Int) - (now.toMin : Int) ∧
    loop_sleep sun today now =
      .untilSunrise ((((sun (today + 1)).sunrise).toMin : Int) - (now.toMin : Int)) := by
  simp only [has_passed_sunset, decide_eq_true_eq] at hafter
  obtain ⟨hd, -, -, -⟩ := hs (today + 1)
  have hlt : now.toMin < ((sun (today + 1)).sunrise).toMin := by
    simp only [Instant.toMin, hday, hd]
    omega
  refine ⟨?_, ?_, ?_⟩
  · simp [wait_until_sunrise, hafter]
  · omega
  · simp [loop_sleep, has_passed_sunset, hafter, wait_until_sunrise]

/-- C4 witness: with sunset at 20:00 and now 21:40 on day 0, the loop sleeps
500 minutes, until tomorrow's 06:00 sunrise. -/
theorem after_sunset_sleep_until_tomorrow_sunrise_witness :
    wait_until_sunrise sunnyOracle 0 ⟨0, 1300⟩ = some 500 ∧
    (0 : Int) < 500 ∧
    loop_sleep sunnyOracle 0 ⟨0, 1300⟩ = .untilSunrise 500 := by
  obtain ⟨h1, h2, h3⟩ :=
    after_sunset_sleep_until_tomorrow_sunrise sunnyOracle 0 ⟨0, 1300⟩
      (fun d => ⟨rfl, rfl, Nat.lt_of_sub_eq_succ rfl, Nat.lt_of_sub_eq_succ rfl⟩)
      rfl (by decide) (by decide)
  exact ⟨h1.trans (by decide), by decide, h3.trans (by decide)⟩

end SolarRobot
